import Mathlib

/-!
Shallow embedding of the K8sNode adapter
(`testsuite/forge/src/backend/k8s/node.rs`).

Pure data (names, ports, flags) is carried by a `K8sNode` structure that
mirrors the Rust struct.  Effectful operations are embedded as pure
functions that take the outcomes of their external collaborators
(subprocess spawn results, command outputs, HTTP responses) as explicit
arguments, and return a trace of the externally visible actions they
perform, the operation's result, and the descriptor as it stands after
the call.
-/

namespace Forge

/-- `NODE_METRIC_PORT` from node.rs. -/
def NODE_METRIC_PORT : Nat := 9101

/-- `REST_API_SERVICE_PORT` from node.rs: the port on the validator service itself. -/
def REST_API_SERVICE_PORT : Nat := 8080

/-- `REST_API_HAPROXY_SERVICE_PORT` from node.rs. -/
def REST_API_HAPROXY_SERVICE_PORT : Nat := 80

/-- `LOCALHOST` from node.rs: host used when interacting over port-forward. -/
def LOCALHOST : String := "127.0.0.1"

/-- Modelled from the spec: `KUBECTL_BIN`, the cluster CLI binary, is imported
by node.rs from elsewhere in the forge crate (not part of the supplied file). -/
def KUBECTL_BIN : String := "kubectl"

/-- Models `aptos_sdk::types::PeerId`: an opaque 32-byte network identity,
carried inertly by the descriptor. -/
abbrev PeerId := List Nat

/-- Models the opaque `Version` identifier. -/
abbrev Version := String

/-- The `K8sNode` struct from node.rs.  `rest_api_port` is a `u32` in the
source; it is embedded as a `Nat` (its numeric value). -/
structure K8sNode where
  name : String
  stateful_set_name : String
  peer_id : PeerId
  index : Nat
  service_name : String
  rest_api_port : Nat
  version : Version
  «namespace» : String
  haproxy_enabled : Bool
  port_forward_enabled : Bool

/-- A parsed URL of the restricted shape the adapter produces:
an `http` scheme, a host, an explicit port, and the root path. -/
structure Url where
  host : String
  port : Nat
deriving DecidableEq

/-- Serialization of such a URL (the `url` crate prints the root path `/`). -/
def urlToString (u : Url) : String :=
  "http://" ++ u.host ++ ":" ++ toString u.port ++ "/"

/-- Characters admitted in a DNS-style host (letters, digits, dot, hyphen). -/
def hostCharOk (c : Char) : Bool :=
  c.isAlphanum || c == '.' || c == '-'

/-- A DNS-style host: nonempty and made of `hostCharOk` characters. -/
def hostOk (s : String) : Bool :=
  !s.isEmpty && s.data.all hostCharOk

/-- Models `reqwest::Url` parsing (the external `url` crate) applied to a
string of the shape `http://HOST:PORT` with a decimal `PORT`, as produced by
the two endpoint accessors.  For a DNS-style host the crate succeeds exactly
when the port fits in 16 bits (ports are stored as `u16`; larger values are
an `InvalidPort` error); hosts with other characters are conservatively
modelled as rejected (the crate refuses forbidden host code points such as
spaces).  `none` models a parse error, which the accessors turn into a panic
via `expect`/`unwrap`. -/
def urlFromHttpHostPort (host : String) (port : Nat) : Option Url :=
  if hostOk host ∧ port < 65536 then some ⟨host, port⟩ else none

/-- The host chosen by `rest_api_endpoint` in node.rs:
`LOCALHOST` when `port_forward_enabled`, else the service name. -/
def restApiHost (n : K8sNode) : String :=
  if n.port_forward_enabled then LOCALHOST else n.service_name

/-- `rest_api_endpoint` from node.rs: formats `http://{host}:{port}` and
parses it as a `Url`; a parse failure is a call-time panic (`expect`),
modelled as `none`. -/
def rest_api_endpoint (n : K8sNode) : Option Url :=
  urlFromHttpHostPort (restApiHost n) n.rest_api_port

/-- `inspection_service_endpoint` from node.rs: formats
`http://{service_name}:{rest_api_port}` and parses it; a parse failure is a
call-time panic (`unwrap`), modelled as `none`. -/
def inspection_service_endpoint (n : K8sNode) : Option Url :=
  urlFromHttpHostPort n.service_name n.rest_api_port

/-- Does `pat` occur at the head of the character list? -/
def leadsWith : List Char → List Char → Bool
  | [], _ => true
  | _ :: _, [] => false
  | p :: ps, c :: cs => p == c && leadsWith ps cs

/-- Does `pat` occur anywhere in the character list? -/
def occursIn (pat : List Char) : List Char → Bool
  | [] => pat.isEmpty
  | c :: cs => leadsWith pat (c :: cs) || occursIn pat cs

/-- Models Rust `str::contains` with a literal pattern: substring test. -/
def strContains (s pat : String) : Bool :=
  occursIn pat.data s.data

/-- The persistent-volume-claim name derived by `clear_storage` in node.rs
from the stateful-set name. -/
def pvcName (sts : String) : String :=
  if strContains sts "fullnode" then "fn-" ++ sts ++ "-0" else sts

/-- Configuration of a child process's standard output stream
(`Stdio::null()`, `Stdio::inherit()`, or the default pipe). -/
inductive StdioCfg where
  | nullDev
  | inherited
  | piped
deriving DecidableEq

/-- An external command: binary, argument vector, stdout configuration. -/
structure Cmd where
  bin : String
  args : List String
  stdoutCfg : StdioCfg
deriving DecidableEq

/-- The externally visible actions an operation of the adapter performs, in
order.  `spawnChild` launches a command without waiting; `runToCompletion`
models `Command::output()`; `tryWait` is the non-blocking status poll
(`Child::try_wait`); `waitChild` would be a blocking reap (`Child::wait`)
and `killChild` a kill — node.rs never performs either. -/
inductive Act where
  | spawnChild (c : Cmd)
  | runToCompletion (c : Cmd)
  | sleepSecs (n : Nat)
  | tryWait
  | waitChild
  | killChild
  | allocFreePort (p : Nat)
  | scaleReplicas (sts : String) (replicas : Nat)
  | waitHealthySecs (deadline : Nat)
  | httpGet (url : String)
deriving DecidableEq

/-- The remote port chosen by `spawn_port_forward` in node.rs. -/
def spawnPortForwardRemotePort (n : K8sNode) : Nat :=
  if n.haproxy_enabled then REST_API_HAPROXY_SERVICE_PORT else REST_API_SERVICE_PORT

/-- The command built by `spawn_port_forward` in node.rs: `KUBECTL_BIN` with
`port_forward_args`, stdout discarded (`Stdio::null()`). -/
def spawnPortForwardCmd (n : K8sNode) : Cmd where
  bin := KUBECTL_BIN
  args := ["port-forward", "-n", n.«namespace»,
           "svc/" ++ n.service_name,
           toString n.rest_api_port ++ ":" ++ toString (spawnPortForwardRemotePort n)]
  stdoutCfg := .nullDev

/-- Outcome of the `Child::try_wait` poll: the child already exited with some
status, is still running, or the poll itself returned an OS error. -/
inductive PollRes where
  | exited (status : Int)
  | running
  | pollErr (oserr : String)
deriving DecidableEq

/-- Environment for `spawn_port_forward`: either the spawn failed with an OS
error, or a child was spawned and the later poll had the given outcome. -/
inductive SpawnEnv where
  | spawnErr (oserr : String)
  | spawned (poll : PollRes)
deriving DecidableEq

/-- The two `anyhow!` errors `spawn_port_forward` can build, carrying the
argument vector and the underlying error text as the formatted message does. -/
inductive PFError where
  | didNotStart (args : List String) (oserr : String)
  | didNotWork (args : List String) (oserr : String)
deriving DecidableEq

/-- `spawn_port_forward` from node.rs.  Spawns the port-forward command; on
spawn success sleeps 1 second and polls the child once with `try_wait`:
an already-exited child (any status) and a still-running child are both
`Ok(())`; a poll error is an error; a spawn failure is an error.  The child
is never reaped (`waitChild`) or killed. -/
def spawn_port_forward (n : K8sNode) (env : SpawnEnv) :
    List Act × Except PFError Unit × K8sNode :=
  let cmd := spawnPortForwardCmd n
  match env with
  | .spawnErr e => ([.spawnChild cmd], .error (.didNotStart cmd.args e), n)
  | .spawned p =>
      ([.spawnChild cmd, .sleepSecs 1, .tryWait],
       match p with
       | .exited _ => .ok ()
       | .running => .ok ()
       | .pollErr e => .error (.didNotWork cmd.args e),
       n)

/-- `start` from node.rs: `scale_stateful_set_replicas(sts, 1)?` then
`wait_until_healthy(now + 60s)?`.  `scaleRes` and `waitRes` are the outcomes
of the two external collaborators. -/
def start (n : K8sNode) (scaleRes waitRes : Except String Unit) :
    List Act × Except String Unit × K8sNode :=
  match scaleRes with
  | .error e => ([.scaleReplicas n.stateful_set_name 1], .error e, n)
  | .ok _ => ([.scaleReplicas n.stateful_set_name 1, .waitHealthySecs 60], waitRes, n)

/-- `stop` from node.rs: `scale_stateful_set_replicas(sts, 0)`, returning its
result directly, without waiting for termination. -/
def stop (n : K8sNode) (scaleRes : Except String Unit) :
    List Act × Except String Unit × K8sNode :=
  ([.scaleReplicas n.stateful_set_name 0], scaleRes, n)

/-- What `Command::output()` handed back for the PVC delete: the exit-status
success bit and the captured standard-error bytes (decoded as UTF-8 by
`String::from_utf8(..).unwrap()` in the source). -/
structure CmdOutput where
  statusSuccess : Bool
  stderrUtf8 : String
deriving DecidableEq

/-- Result of `clear_storage`: `ok` models `Ok(())`; `err` models a returned
`Err` value, which the function never produces; `panicked` models a panic
(`expect` on a failed launch, or the `assert!` on a nonzero exit status). -/
inductive ClearOutcome where
  | ok
  | err (e : String)
  | panicked (msg : String)
deriving DecidableEq

/-- The command built by `clear_storage` in node.rs: literal `kubectl`,
`delete pvc {pvc_name}`, stdout inherited. -/
def clearStorageCmd (n : K8sNode) : Cmd where
  bin := "kubectl"
  args := ["delete", "pvc", pvcName n.stateful_set_name]
  stdoutCfg := .inherited

/-- `clear_storage` from node.rs.  Runs the PVC delete to completion;
`out = none` models `Command::output()` itself failing (`expect` panics);
with an output, a nonzero exit status panics (`assert!`) with the
command's standard-error bytes as the message, and a zero status is `Ok(())`. -/
def clear_storage (n : K8sNode) (out : Option CmdOutput) :
    List Act × ClearOutcome × K8sNode :=
  ([.runToCompletion (clearStorageCmd n)],
   match out with
   | none => .panicked "failed to clear node storage"
   | some o => if o.statusSuccess then .ok else .panicked o.stderrUtf8,
   n)

/-- Modelled from the spec: `HealthCheckError`, declared elsewhere in the
forge crate, with a `Failure` variant distinguishable from unknown/other
failures. -/
inductive HealthCheckError where
  | Failure (e : String)
  | Unknown (e : String)
deriving DecidableEq

/-- The string `rest_api_endpoint` formats before URL parsing; the REST
client used by `health_check` is built from the parsed endpoint. -/
def restApiUrlString (n : K8sNode) : String :=
  "http://" ++ restApiHost n ++ ":" ++ toString n.rest_api_port

/-- `health_check` from node.rs: issues the ledger-information call on the
REST client for the node's REST endpoint; success maps to `Ok(())`, a client
error `e` maps to `HealthCheckError::Failure` wrapping `e`. -/
def health_check (n : K8sNode) (ledgerRes : Except String Unit) :
    List Act × Except HealthCheckError Unit × K8sNode :=
  ([.httpGet (restApiUrlString n)],
   match ledgerRes with
   | .ok _ => .ok ()
   | .error e => .error (.Failure ("K8s node health_check failed: " ++ e)),
   n)

/-- Models a `serde_json::Number` together with the behaviour of `as_f64`:
`val` is the numeric value (embedded as a rational, floating point being
outside the embedding) and `repr64` records whether `as_f64` succeeds,
i.e. whether the number is representable as an `f64`. -/
structure JNum where
  val : ℚ
  repr64 : Bool

/-- Models `serde_json::Value`. -/
inductive Value where
  | null
  | bool (b : Bool)
  | num (jn : JNum)
  | str (s : String)
  | arr (xs : List Value)
  | obj (kvs : List (String × Value))

/-- Models `serde_json` indexing `value[key]` with a string key: lookup in an
object, yielding `Null` for a missing key; `Null` on any non-object. -/
def Value.index (v : Value) (key : String) : Value :=
  match v with
  | .obj kvs =>
      match kvs.lookup key with
      | some w => w
      | none => .null
  | _ => .null

/-- The errors `counter` can produce: the HTTP fetch or JSON decode failed
(`reqwest`/`.json()` error propagated by `?`); the value was a number but
`as_f64` failed; the indexed value was not a `Value::Number` (which is also
what happens when the key is absent — the indexed value is then `Null`). -/
inductive CounterErr where
  | fetch (e : String)
  | parseF64 (counter : String) (jn : JNum)
  | notNumber (counter : String) (v : Value)

/-- The URL `counter` fetches. -/
def countersUrl (port : Nat) : String :=
  "http://localhost:" ++ toString port ++ "/counters"

/-- `counter` from node.rs.  Fetches `http://localhost:{port}/counters`
(`fetched` is the decoded JSON, or the fetch/decode error), indexes the
response at the counter name, and returns the number as a double when
`as_f64` succeeds; a non-number (including `Null` for an absent key) is a
`notNumber` error carrying the indexed value. -/
def counter (n : K8sNode) (cname : String) (port : Nat)
    (fetched : Except String Value) :
    List Act × Except CounterErr ℚ × K8sNode :=
  ([.httpGet (countersUrl port)],
   match fetched with
   | .error e => .error (.fetch e)
   | .ok v =>
       match v.index cname with
       | .num jn => if jn.repr64 then .ok jn.val else .error (.parseF64 cname jn)
       | w => .error (.notNumber cname w),
   n)

/-- The command built by `expose_metric` in node.rs: literal `kubectl`,
`port-forward pod/{sts}-0 {port}:{NODE_METRIC_PORT}` with no namespace flag,
stdout discarded. -/
def exposeMetricCmd (n : K8sNode) (port : Nat) : Cmd where
  bin := "kubectl"
  args := ["port-forward", "pod/" ++ n.stateful_set_name ++ "-0",
           toString port ++ ":" ++ toString NODE_METRIC_PORT]
  stdoutCfg := .nullDev

/-- `expose_metric` from node.rs.  Allocates a fresh local port from the
external free-port allocator (`freePort` models `get_free_port()`), spawns
the pod port-forward; on spawn failure returns the `with_context` error; on
success sleeps 5 seconds and returns the allocated port.  The child is never
polled, reaped or killed. -/
def expose_metric (n : K8sNode) (freePort : Nat)
    (spawnRes : Except String Unit) :
    List Act × Except String Nat × K8sNode :=
  let pod := n.stateful_set_name ++ "-0"
  let cmd := exposeMetricCmd n freePort
  match spawnRes with
  | .error _ =>
      ([.allocFreePort freePort, .spawnChild cmd],
       .error ("Error port forwarding for node " ++ pod), n)
  | .ok _ =>
      ([.allocFreePort freePort, .spawnChild cmd, .sleepSecs 5],
       .ok freePort, n)

/-- A concrete descriptor used to instantiate the universally quantified
theorems below (scenario 1 of the spec's testable properties). -/
def valNode : K8sNode where
  name := "val0"
  stateful_set_name := "aptos-node-0-validator"
  peer_id := List.replicate 32 0
  index := 0
  service_name := "val0"
  rest_api_port := 40001
  version := "v1"
  «namespace» := "forge-test"
  haproxy_enabled := false
  port_forward_enabled := true

/-- C1: for every `K8sNode` descriptor, `rest_api_endpoint` returns the URL
`http://H:P/` where `H` is exactly `127.0.0.1` when `port_forward_enabled` is
true and exactly `service_name` when it is false, and `P` is `rest_api_port`;
no other field affects the result. -/
theorem rest_api_endpoint_host_selection (n : K8sNode) :
    rest_api_endpoint n =
      urlFromHttpHostPort
        (if n.port_forward_enabled then "127.0.0.1" else n.service_name)
        n.rest_api_port
    ∧ (∀ u, rest_api_endpoint n = some u →
        urlToString u =
          "http://" ++ (if n.port_forward_enabled then "127.0.0.1" else n.service_name)
            ++ ":" ++ toString n.rest_api_port ++ "/")
    ∧ ∀ m : K8sNode, m.service_name = n.service_name →
        m.rest_api_port = n.rest_api_port →
        m.port_forward_enabled = n.port_forward_enabled →
        rest_api_endpoint m = rest_api_endpoint n := by
  refine ⟨rfl, ?_, ?_⟩
  · intro u hu
    unfold rest_api_endpoint urlFromHttpHostPort at hu
    split at hu
    · cases hu
      rfl
    · cases hu
  · intro m h1 h2 h3
    unfold rest_api_endpoint restApiHost
    rw [h1, h2, h3]

/-- Witness for C1 at a concrete descriptor (spec scenario 1). -/
theorem rest_api_endpoint_host_selection_witness :
    rest_api_endpoint valNode = some ⟨"127.0.0.1", 40001⟩
    ∧ urlToString ⟨"127.0.0.1", 40001⟩ = "http://127.0.0.1:40001/" :=
  ⟨by decide,
   (rest_api_endpoint_host_selection valNode).2.1 ⟨"127.0.0.1", 40001⟩ (by decide)⟩

/-- C7: for every `K8sNode` descriptor, `inspection_service_endpoint` returns
`http://{service_name}:{rest_api_port}/`, using the in-cluster service name
as host regardless of `port_forward_enabled` (unlike `rest_api_endpoint`). -/
theorem inspection_endpoint_always_service_name (n : K8sNode) :
    inspection_service_endpoint n = urlFromHttpHostPort n.service_name n.rest_api_port
    ∧ (∀ u, inspection_service_endpoint n = some u →
        urlToString u =
          "http://" ++ n.service_name ++ ":" ++ toString n.rest_api_port ++ "/")
    ∧ ∀ b, inspection_service_endpoint { n with port_forward_enabled := b }
        = inspection_service_endpoint n := by
  refine ⟨rfl, ?_, fun b => rfl⟩
  intro u hu
  unfold inspection_service_endpoint urlFromHttpHostPort at hu
  split at hu
  · cases hu
    rfl
  · cases hu

/-- Witness for C7 at a concrete descriptor (spec scenario 1). -/
theorem inspection_endpoint_always_service_name_witness :
    inspection_service_endpoint valNode = some ⟨"val0", 40001⟩
    ∧ urlToString ⟨"val0", 40001⟩ = "http://val0:40001/" :=
  ⟨by decide,
   (inspection_endpoint_always_service_name valNode).2.1 ⟨"val0", 40001⟩ (by decide)⟩

/-- A descriptor whose `rest_api_port` is 65536 — a legal `u32` value, but one
the url crate rejects (`InvalidPort`), so both accessors hit their
`expect`/`unwrap` at call time. -/
def overflowPortNode : K8sNode where
  name := "val1"
  stateful_set_name := "aptos-node-1-validator"
  peer_id := List.replicate 32 1
  index := 1
  service_name := "val1"
  rest_api_port := 65536
  version := "v1"
  «namespace» := "forge-test"
  haproxy_enabled := false
  port_forward_enabled := false

/-- Counterexample to C9 as stated: at the input combination
`service_name = "val1"`, `rest_api_port = 65536`, `port_forward_enabled =
false`, both accessors fail to produce a URL at call time (the parse fails
and the `expect`/`unwrap` panics), so the resolver is not total over every
input combination. -/
theorem endpoint_resolver_not_total :
    rest_api_endpoint overflowPortNode = none
    ∧ inspection_service_endpoint overflowPortNode = none := by
  decide

/-- C9 (amended): for every descriptor whose `service_name` is a DNS-style
host and whose `rest_api_port` fits in 16 bits, `rest_api_endpoint` and
`inspection_service_endpoint` both succeed in producing a well-formed URL;
outside that set the accessors themselves panic at call time via the
`expect`/`unwrap` on the URL parse — the supplied module contains no
construction-time assertion. -/
theorem endpoint_resolver_total_on_wellformed (n : K8sNode)
    (hhost : hostOk n.service_name = true) (hport : n.rest_api_port < 65536) :
    (∃ u, rest_api_endpoint n = some u)
    ∧ ∃ u, inspection_service_endpoint n = some u := by
  have hh : hostOk (restApiHost n) = true := by
    unfold restApiHost
    cases hb : n.port_forward_enabled
    · simpa using hhost
    · simp only [if_true]
      decide
  refine ⟨⟨⟨restApiHost n, n.rest_api_port⟩, ?_⟩,
          ⟨⟨n.service_name, n.rest_api_port⟩, ?_⟩⟩
  · unfold rest_api_endpoint urlFromHttpHostPort
    rw [if_pos ⟨hh, hport⟩]
  · unfold inspection_service_endpoint urlFromHttpHostPort
    rw [if_pos ⟨hhost, hport⟩]

/-- Witness for the amended C9 at a concrete descriptor. -/
theorem endpoint_resolver_total_on_wellformed_witness :
    hostOk valNode.service_name = true
    ∧ valNode.rest_api_port < 65536
    ∧ ((∃ u, rest_api_endpoint valNode = some u)
       ∧ ∃ u, inspection_service_endpoint valNode = some u) :=
  ⟨by decide, by decide,
   endpoint_resolver_total_on_wellformed valNode (by decide) (by decide)⟩

/-- C3: for every descriptor, `spawn_port_forward` chooses remote port 80 iff
`haproxy_enabled` is true and 8080 otherwise, and invokes the cluster CLI
with argument vector exactly
`[port-forward, -n, {namespace}, svc/{service_name}, {rest_api_port}:{remote}]`,
with the child's standard output discarded. -/
theorem spawn_port_forward_argv (n : K8sNode) :
    (spawnPortForwardRemotePort n = 80 ↔ n.haproxy_enabled = true)
    ∧ (n.haproxy_enabled = false → spawnPortForwardRemotePort n = 8080)
    ∧ (spawnPortForwardCmd n).args =
        ["port-forward", "-n", n.«namespace», "svc/" ++ n.service_name,
         toString n.rest_api_port ++ ":" ++ toString (spawnPortForwardRemotePort n)]
    ∧ (spawnPortForwardCmd n).stdoutCfg = .nullDev
    ∧ ∀ env, (spawn_port_forward n env).1.head? = some (.spawnChild (spawnPortForwardCmd n)) := by
  refine ⟨?_, ?_, rfl, rfl, ?_⟩
  · cases hb : n.haproxy_enabled <;>
      simp [spawnPortForwardRemotePort, hb,
            REST_API_SERVICE_PORT, REST_API_HAPROXY_SERVICE_PORT]
  · intro hb
    simp [spawnPortForwardRemotePort, hb, REST_API_SERVICE_PORT]
  · intro env
    cases env <;> rfl

/-- Witness for C3 at a concrete descriptor (`haproxy_enabled = false`). -/
theorem spawn_port_forward_argv_witness :
    valNode.haproxy_enabled = false
    ∧ spawnPortForwardRemotePort valNode = 8080
    ∧ (spawnPortForwardCmd valNode).args =
        ["port-forward", "-n", "forge-test", "svc/val0", "40001:8080"] :=
  ⟨rfl, (spawn_port_forward_argv valNode).2.1 rfl, by decide⟩

/-- C4: after spawning the port-forward child and sleeping one second,
`spawn_port_forward` returns success both when the child has already exited
(with any exit status) and when it is still running; it returns an error
exactly when polling the child's status errors or when the spawn itself
fails; it never reaps (`waitChild`) or kills the child. -/
theorem spawn_port_forward_settle (n : K8sNode) (env : SpawnEnv) :
    (∀ s, env = .spawned (.exited s) → (spawn_port_forward n env).2.1 = .ok ())
    ∧ (env = .spawned .running → (spawn_port_forward n env).2.1 = .ok ())
    ∧ ((∃ e, (spawn_port_forward n env).2.1 = .error e) ↔
        (∃ msg, env = .spawnErr msg) ∨ ∃ msg, env = .spawned (.pollErr msg))
    ∧ (∀ p, env = .spawned p →
        (spawn_port_forward n env).1 =
          [.spawnChild (spawnPortForwardCmd n), .sleepSecs 1, .tryWait])
    ∧ Act.waitChild ∉ (spawn_port_forward n env).1
    ∧ Act.killChild ∉ (spawn_port_forward n env).1 := by
  cases env with
  | spawnErr e => simp [spawn_port_forward]
  | spawned p => cases p <;> simp [spawn_port_forward]

/-- Witness for C4: a child that already exited with a nonzero status still
yields success (spec scenario 6, with status 1 instead of 0). -/
theorem spawn_port_forward_settle_witness :
    (SpawnEnv.spawned (.exited 1) = SpawnEnv.spawned (.exited 1))
    ∧ (spawn_port_forward valNode (.spawned (.exited 1))).2.1 = .ok () :=
  ⟨rfl, (spawn_port_forward_settle valNode (.spawned (.exited 1))).1 1 rfl⟩

/-- C2: `clear_storage` derives the PVC name as `fn-{s}-0` when the
stateful-set name contains `fullnode` and as `s` itself otherwise; it invokes
the cluster CLI with argument vector `[delete, pvc, {pvc_name}]`; and a
nonzero exit status panics with the command's standard-error bytes as the
message rather than returning an error value. -/
theorem clear_storage_pvc_rule (n : K8sNode) (s : String) (out : CmdOutput) :
    (strContains s "fullnode" = true → pvcName s = "fn-" ++ s ++ "-0")
    ∧ (strContains s "fullnode" = false → pvcName s = s)
    ∧ (clearStorageCmd n).args = ["delete", "pvc", pvcName n.stateful_set_name]
    ∧ (clear_storage n (some out)).1 = [.runToCompletion (clearStorageCmd n)]
    ∧ (out.statusSuccess = false →
        (clear_storage n (some out)).2.1 = .panicked out.stderrUtf8)
    ∧ (out.statusSuccess = true → (clear_storage n (some out)).2.1 = .ok)
    ∧ ∀ e, (clear_storage n (some out)).2.1 ≠ .err e := by
  refine ⟨?_, ?_, rfl, rfl, ?_, ?_, ?_⟩
  · intro h
    simp [pvcName, h]
  · intro h
    simp [pvcName, h]
  · intro h
    simp [clear_storage, h]
  · intro h
    simp [clear_storage, h]
  · intro e
    cases hs : out.statusSuccess <;> simp [clear_storage, hs]

/-- Witness for C2 at the spec's concrete stateful-set names (scenario 3) and
a failing delete with stderr `boom`. -/
theorem clear_storage_pvc_rule_witness :
    strContains "aptos-node-0-validator-fullnode" "fullnode" = true
    ∧ pvcName "aptos-node-0-validator-fullnode" =
        "fn-" ++ "aptos-node-0-validator-fullnode" ++ "-0"
    ∧ strContains "aptos-node-0-validator" "fullnode" = false
    ∧ pvcName "aptos-node-0-validator" = "aptos-node-0-validator"
    ∧ (clear_storage valNode (some ⟨false, "boom"⟩)).2.1 = .panicked "boom" :=
  ⟨by decide,
   (clear_storage_pvc_rule valNode "aptos-node-0-validator-fullnode" ⟨false, "boom"⟩).1
     (by decide),
   by decide,
   (clear_storage_pvc_rule valNode "aptos-node-0-validator" ⟨false, "boom"⟩).2.1
     (by decide),
   (clear_storage_pvc_rule valNode "x" ⟨false, "boom"⟩).2.2.2.2.1 rfl⟩

/-- C8: `start` first sets the stateful-set's desired replica count to 1 and
then waits for the health probe with a 60-second deadline, propagating a
scaling error or a health-check failure as its own result without retrying;
`stop` sets the desired replica count to 0 and returns without waiting. -/
theorem start_stop_scaling (n : K8sNode) (sres wres : Except String Unit) :
    (start n sres wres).1.head? = some (.scaleReplicas n.stateful_set_name 1)
    ∧ (∀ e, sres = .error e →
        (start n sres wres).2.1 = .error e
        ∧ (start n sres wres).1 = [.scaleReplicas n.stateful_set_name 1])
    ∧ (∀ u, sres = .ok u →
        (start n sres wres).1 =
          [.scaleReplicas n.stateful_set_name 1, .waitHealthySecs 60]
        ∧ (start n sres wres).2.1 = wres)
    ∧ (stop n sres).1 = [.scaleReplicas n.stateful_set_name 0]
    ∧ (stop n sres).2.1 = sres
    ∧ ∀ d, Act.waitHealthySecs d ∉ (stop n sres).1 := by
  cases sres <;> simp [start, stop]

/-- Witness for C8: a scaling error propagates and the health wait never
happens; with scaling succeeding, the 60-second wait follows the scale-up. -/
theorem start_stop_scaling_witness :
    ((Except.error "scale failed" : Except String Unit) = .error "scale failed")
    ∧ (start valNode (.error "scale failed") (.ok ())).2.1 = .error "scale failed"
    ∧ (start valNode (.error "scale failed") (.ok ())).1 =
        [.scaleReplicas "aptos-node-0-validator" 1]
    ∧ (start valNode (.ok ()) (.ok ())).1 =
        [.scaleReplicas "aptos-node-0-validator" 1, .waitHealthySecs 60] :=
  ⟨rfl,
   ((start_stop_scaling valNode (.error "scale failed") (.ok ())).2.1
     "scale failed" rfl).1,
   ((start_stop_scaling valNode (.error "scale failed") (.ok ())).2.1
     "scale failed" rfl).2,
   ((start_stop_scaling valNode (.ok ()) (.ok ())).2.2.1 () rfl).1⟩

/-- C5: `counter` fetches `http://localhost:{port}/counters` as JSON; when
the object maps the name to a JSON number representable as f64 it returns
that number; when the value is a non-number it fails with a type error
carrying that value; when the key is absent it fails with an error carrying
`Null`, a concrete error value distinct from the type error's. -/
theorem counter_lookup_behavior (n : K8sNode) (cname : String) (port : Nat)
    (q : ℚ) (v : Value) :
    (counter n cname port (.ok (.obj [(cname, .num ⟨q, true⟩)]))).2.1 = .ok q
    ∧ ((∀ jn, v ≠ .num jn) →
        (counter n cname port (.ok (.obj [(cname, v)]))).2.1 =
          .error (.notNumber cname v))
    ∧ (counter n cname port (.ok (.obj []))).2.1 = .error (.notNumber cname .null)
    ∧ CounterErr.notNumber cname (.str "x") ≠ CounterErr.notNumber cname .null
    ∧ (counter n cname port (.ok v)).1 =
        [.httpGet ("http://localhost:" ++ toString port ++ "/counters")] := by
  refine ⟨?_, ?_, rfl, ?_, rfl⟩
  · simp [counter, Value.index, List.lookup]
  · intro h
    cases v with
    | num jn => exact absurd rfl (h jn)
    | null => simp [counter, Value.index, List.lookup]
    | bool b => simp [counter, Value.index, List.lookup]
    | str s => simp [counter, Value.index, List.lookup]
    | arr xs => simp [counter, Value.index, List.lookup]
    | obj kvs => simp [counter, Value.index, List.lookup]
  · simp

/-- Witness for C5 at the spec's round-trip fixtures: `{t: 3.5}` yields 3.5,
`{t: "x"}` yields the non-number error carrying `"x"`. -/
theorem counter_lookup_behavior_witness :
    (∀ jn, Value.str "x" ≠ .num jn)
    ∧ (counter valNode "t" 9 (.ok (.obj [("t", .num ⟨3.5, true⟩)]))).2.1 =
        .ok (3.5 : ℚ)
    ∧ (counter valNode "t" 9 (.ok (.obj [("t", .str "x")]))).2.1 =
        .error (.notNumber "t" (.str "x")) :=
  ⟨fun _ h => Value.noConfusion h,
   (counter_lookup_behavior valNode "t" 9 3.5 (.str "x")).1,
   (counter_lookup_behavior valNode "t" 9 3.5 (.str "x")).2.1
     (fun _ h => Value.noConfusion h)⟩

/-- C6: `expose_metric` allocates a fresh local port `P` from the free-port
allocator, invokes the cluster CLI with argument vector exactly
`[port-forward, pod/{stateful_set_name}-0, {P}:9101]` with no namespace flag,
sleeps 5 seconds, and returns `P`; the spawned child is never polled
(`tryWait`) or reaped (`waitChild`). -/
theorem expose_metric_behavior (n : K8sNode) (p : Nat) :
    (expose_metric n p (.ok ())).2.1 = .ok p
    ∧ (exposeMetricCmd n p).args =
        ["port-forward", "pod/" ++ n.stateful_set_name ++ "-0",
         toString p ++ ":9101"]
    ∧ "-n" ∉ (exposeMetricCmd n p).args
    ∧ (exposeMetricCmd n p).stdoutCfg = .nullDev
    ∧ (expose_metric n p (.ok ())).1 =
        [.allocFreePort p, .spawnChild (exposeMetricCmd n p), .sleepSecs 5]
    ∧ ∀ res, Act.tryWait ∉ (expose_metric n p res).1
        ∧ Act.waitChild ∉ (expose_metric n p res).1 := by
  have hargs : (exposeMetricCmd n p).args =
      ["port-forward", "pod/" ++ n.stateful_set_name ++ "-0",
       toString p ++ ":9101"] := by
    have h91 : toString NODE_METRIC_PORT = "9101" := rfl
    have hc : (":" : String) ++ "9101" = ":9101" := rfl
    simp only [exposeMetricCmd, h91, String.append_assoc, hc]
  refine ⟨rfl, hargs, ?_, rfl, rfl, ?_⟩
  · rw [hargs]
    intro hmem
    simp only [List.mem_cons, List.not_mem_nil, or_false] at hmem
    rcases hmem with h | h | h
    · exact absurd h (by decide)
    · have hl := congrArg String.length h
      rw [String.length_append, String.length_append] at hl
      have e1 : ("-n" : String).length = 2 := rfl
      have e2 : ("pod/" : String).length = 4 := rfl
      have e3 : ("-0" : String).length = 2 := rfl
      omega
    · have hl := congrArg String.length h
      rw [String.length_append] at hl
      have e1 : ("-n" : String).length = 2 := rfl
      have e2 : (":9101" : String).length = 5 := rfl
      omega
  · intro res
    cases res <;> simp [expose_metric]

/-- Witness for C6 at a concrete descriptor and port (spec scenario 5). -/
theorem expose_metric_behavior_witness :
    ((Except.ok () : Except String Unit) = .ok ())
    ∧ (expose_metric valNode 40123 (.ok ())).2.1 = .ok 40123
    ∧ (exposeMetricCmd valNode 40123).args =
        ["port-forward", "pod/aptos-node-0-validator-0", "40123:9101"] :=
  ⟨rfl,
   (expose_metric_behavior valNode 40123).1,
   by
     have h := (expose_metric_behavior valNode 40123).2.1
     simpa using h⟩

/-- C10: no core operation mutates the descriptor: after `start`, `stop`,
`clear_storage`, `health_check`, `spawn_port_forward`, `expose_metric`, or
`counter`, the descriptor — every field including `version` — is unchanged. -/
theorem core_ops_do_not_mutate (n : K8sNode) (env : SpawnEnv)
    (sres wres : Except String Unit) (out : Option CmdOutput)
    (hres : Except String Unit) (p : Nat) (mres : Except String Unit)
    (cname : String) (port : Nat) (fetched : Except String Value) :
    (start n sres wres).2.2 = n
    ∧ (stop n sres).2.2 = n
    ∧ (clear_storage n out).2.2 = n
    ∧ (health_check n hres).2.2 = n
    ∧ (spawn_port_forward n env).2.2 = n
    ∧ (expose_metric n p mres).2.2 = n
    ∧ (counter n cname port fetched).2.2 = n := by
  refine ⟨?_, rfl, rfl, rfl, ?_, ?_, rfl⟩
  · cases sres <;> rfl
  · cases env <;> rfl
  · cases mres <;> rfl

end Forge
